import Mathlib

/-!
Verification of the distributionally robust Bayesian optimisation experiment
driver (exp.py) and its core components.  Scalars are modelled as exact
rationals; the single square root taken by the MMD distance lives in the reals.
The experiment driver is embedded from the source; components imported from
the core package (grids, MMD, acquisition, BO loop, GP module) are modelled
from the specification, as noted on each definition.
-/

namespace FastDRBO

/-! ### Grids (GridSpace) -/

/-- Error raised by grid construction on malformed bounds or density. -/
inductive GridError where
| invalidRange
deriving DecidableEq, Repr

/-- Modelled from the spec: the i-th of `density` evenly spaced points of
the interval from `lower` to `upper` (the linspace formula). -/
def gridPoint (lower upper : ℚ) (density i : ℕ) : ℚ :=
  lower + (upper - lower) * i / ((density : ℚ) - 1)

/-- Modelled from the spec: construct_grid_1d (core.utils, not under src) is
make_grid of the spec: `density` evenly spaced points in the interval, failing
with InvalidRangeError when `upper ≤ lower` or `density < 2`. -/
def construct_grid_1d (lower upper : ℚ) (density : ℕ) : Except GridError (List ℚ) :=
  if upper ≤ lower ∨ density < 2 then .error .invalidRange
  else .ok ((List.range density).map (gridPoint lower upper density))

/-- Modelled from the spec: cross_product (core.utils, not under src) is the
cartesian product of two grids, first factor varying slower. -/
def cross_product (a c : List ℚ) : List (ℚ × ℚ) :=
  a.flatMap fun x => c.map fun y => (x, y)

/-! ### MMD (DistributionDistance) -/

/-- Error raised when a weight vector does not match the support. -/
inductive MMDError where
| shapeMismatch
deriving DecidableEq, Repr

/-- Modelled from the spec: the double kernel sum over the support,
used by the three terms of the squared MMD. -/
def kernelDoubleSum (k : ℚ → ℚ → ℚ) (X p q : List ℚ) : ℚ :=
  ∑ i ∈ Finset.range X.length, ∑ j ∈ Finset.range X.length,
    p.getD i 0 * q.getD j 0 * k (X.getD i 0) (X.getD j 0)

/-- Modelled from the spec: the squared MMD of two discrete distributions
over the shared support `X`. -/
def mmdSq (p q : List ℚ) (k : ℚ → ℚ → ℚ) (X : List ℚ) : ℚ :=
  kernelDoubleSum k X p p + kernelDoubleSum k X q q - 2 * kernelDoubleSum k X p q

/-- Modelled from the spec: the MMD scalar — negative residuals are clamped
to 0 before the square root. -/
noncomputable def MMD_val (p q : List ℚ) (k : ℚ → ℚ → ℚ) (X : List ℚ) : ℝ :=
  Real.sqrt ((max 0 (mmdSq p q k X) : ℚ) : ℝ)

/-- Modelled from the spec: MMD (core.utils, not under src) validates the
weight-vector shapes against the support, raising ShapeMismatchError on a
mismatch, and otherwise returns the clamped square-rooted kernel distance. -/
noncomputable def MMD (p q : List ℚ) (k : ℚ → ℚ → ℚ) (X : List ℚ) :
    Except MMDError ℝ :=
  if p.length = X.length ∧ q.length = X.length then .ok (MMD_val p q k X)
  else .error .shapeMismatch

/-! ### Dataset and the robust BO loop -/

/-- A dataset of (query point, observation) pairs, stored as paired lists. -/
structure Dataset (P : Type) where
  query_points : List P
  observations : List ℚ
deriving Repr, DecidableEq

/-- Append a single (query point, observation) pair to a dataset. -/
def datasetAppend {P : Type} (d : Dataset P) (p : P) (o : ℚ) : Dataset P :=
  ⟨d.query_points ++ [p], d.observations ++ [o]⟩

/-- Modelled from the spec: one iteration of the robust BO loop
(core.optimization, not under src): derive the reference distribution and
margin for this iteration, select the next query point with the acquisition,
observe it, append the pair to the dataset and refit the model. -/
def bo_step {P M D R : Type}
    (action_points context_points : List ℚ)
    (observer : P → ℚ)
    (acq : M → List ℚ → List ℚ → D → R → P)
    (reference_dist_func : ℕ → D)
    (margin_func : ℕ → R)
    (refit : M → Dataset P → Bool → M)
    (optimize_gp : Bool)
    (i : ℕ) (s : Dataset P × M) : Dataset P × M :=
  let refd := reference_dist_func i
  let margin := margin_func i
  let q := acq s.2 action_points context_points refd margin
  let y := observer q
  let d := datasetAppend s.1 q y
  (d, refit s.2 d optimize_gp)

/-- Modelled from the spec: bayes_opt_loop_dist_robust (core.optimization,
not under src) runs exactly `num_iters` iterations of bo_step from the
initial dataset and model, and returns the final dataset and model. -/
def bayes_opt_loop_dist_robust {P M D R : Type}
    (model : M) (init_dataset : Dataset P)
    (action_points context_points : List ℚ)
    (observer : P → ℚ)
    (acq : M → List ℚ → List ℚ → D → R → P)
    (num_iters : ℕ)
    (reference_dist_func : ℕ → D)
    (true_dist_func : ℕ → D)
    (margin_func : ℕ → R)
    (refit : M → Dataset P → Bool → M)
    (optimize_gp : Bool) : Dataset P × M :=
  (List.range num_iters).foldl
    (fun s i => bo_step action_points context_points observer acq
      reference_dist_func margin_func refit optimize_gp i s)
    (init_dataset, model)

/-! ### Acquisition -/

/-- Modelled from the spec: select_next_action of the acquisition returned by
get_acquisition (core.acquisitions, not under src): the argmax of the score
over the candidate grid, ties broken by the first-encountered index. -/
def select_next_action {α : Type} (score : α → ℚ) : List α → Option α
| [] => none
| [a] => some a
| a :: b :: rest =>
  match select_next_action score (b :: rest) with
  | some r => some (if score r ≤ score a then a else r)
  | none => none

/-! ### Experiment driver (exp.py main) -/

/-- The reference-distribution generating function of main
(`lambda x: get_discrete_normal_dist_1d(context_points, ref_mean, ref_var)`),
with the discrete-normal constructor abstracted as `normal_dist`. -/
def ref_dist_func (normal_dist : List ℚ → ℚ → ℚ → List ℚ)
    (context_points : List ℚ) (ref_mean ref_var : ℚ) : ℕ → List ℚ :=
  fun _ => normal_dist context_points ref_mean ref_var

/-- The true-distribution generating function of main
(`lambda x: get_discrete_normal_dist_1d(context_points, true_mean, true_var)`). -/
def true_dist_func (normal_dist : List ℚ → ℚ → ℚ → List ℚ)
    (context_points : List ℚ) (true_mean true_var : ℚ) : ℕ → List ℚ :=
  fun _ => normal_dist context_points true_mean true_var

/-- The margin of main: `MMD(ref_dist_func(0), true_dist_func(0), mmd_kernel,
context_points)`, computed once before the BO loop starts. -/
noncomputable def main_margin (normal_dist : List ℚ → ℚ → ℚ → List ℚ)
    (mmd_kernel : ℚ → ℚ → ℚ) (context_points : List ℚ)
    (ref_mean ref_var true_mean true_var : ℚ) : Except MMDError ℝ :=
  MMD (ref_dist_func normal_dist context_points ref_mean ref_var 0)
      (true_dist_func normal_dist context_points true_mean true_var 0)
      mmd_kernel context_points

/-- The margin function of main: `lambda x: margin`, a constant function
returning the precomputed margin. -/
noncomputable def margin_func (normal_dist : List ℚ → ℚ → ℚ → List ℚ)
    (mmd_kernel : ℚ → ℚ → ℚ) (context_points : List ℚ)
    (ref_mean ref_var true_mean true_var : ℚ) : ℕ → Except MMDError ℝ :=
  fun _ => main_margin normal_dist mmd_kernel context_points
    ref_mean ref_var true_mean true_var

/-! ### Randomness of the driver -/

/-- An abstract model of the process-wide NumPy random source: seeding,
integer sampling (randint draws `size` integers below the bound) and Gaussian
sampling (normal draws `size` noise values), each threading the state. -/
structure NPRandom (σ : Type) where
  seed : ℕ → σ
  randint : σ → ℕ → ℕ → ℕ → List ℕ × σ
  normal : σ → ℕ → List ℚ × σ

/-- The random-dependent prelude of main, in source order:
`np.random.seed(0)` (the configured seed is not used here), the objective
function built by get_obj_func from the configured seed, the initial query
indices drawn by `np.random.randint(0, len(search_points), num_init_points)`,
and the observation-noise draws consumed by the observer on the initial
points. -/
structure PreludeResult (F σ : Type) where
  obj_func : F
  init_indices : List ℕ
  noise : List ℚ
  rng_after : σ

/-- The embedding of main's prelude: seeds the global source with the
constant 0, passes the configured seed only to the objective-function
builder `G`, then draws the initial indices and the observation noise from
the global source. -/
def main_prelude {F σ : Type} (R : NPRandom σ) (G : ℕ → F)
    (num_search num_init seed : ℕ) : PreludeResult F σ :=
  let s0 := R.seed 0
  let obj := G seed
  let draw1 := R.randint s0 0 num_search num_init
  let draw2 := R.normal draw1.2 num_init
  ⟨obj, draw1.1, draw2.1, draw2.2⟩

/-! ### Initial dataset and GP module -/

/-- The fancy-indexing step of main line 64:
`search_points[indices]` — each drawn index is replaced by the corresponding
search-grid point, preserving multiplicity and order. -/
def init_query_points (search_points : List (ℚ × ℚ)) (idxs : List ℕ) :
    List (ℚ × ℚ) :=
  idxs.map fun i => search_points.getD i (0, 0)

/-- Modelled from the spec: GPRModule (core.models, not under src) is
initialised on the given dataset, which it reads but never mutates. -/
structure GPRModule where
  dims : ℕ
  noise_variance : ℚ
  dataset : Dataset (ℚ × ℚ)
  opt_max_iter : ℕ

/-- Modelled from the spec: constructing a GPRModule stores the dataset
exactly as handed over by main (no deduplication or filtering). -/
def mk_GPRModule (dims : ℕ) (noise_variance : ℚ) (dataset : Dataset (ℚ × ℚ))
    (opt_max_iter : ℕ) : GPRModule :=
  ⟨dims, noise_variance, dataset, opt_max_iter⟩

/-! ### Theorems: grids -/

/-- On valid bounds and density, the grid is the linspace map. -/
theorem construct_grid_1d_ok (lower upper : ℚ) (density : ℕ)
    (hlt : lower < upper) (hd : 2 ≤ density) :
    construct_grid_1d lower upper density
      = .ok ((List.range density).map (gridPoint lower upper density)) := by
  unfold construct_grid_1d
  rw [if_neg]
  push_neg
  exact ⟨hlt, hd⟩

/-- The denominator of the linspace formula is positive for density ≥ 2. -/
theorem grid_denom_pos (density : ℕ) (hd : 2 ≤ density) :
    0 < (density : ℚ) - 1 := by
  have : (2 : ℚ) ≤ (density : ℚ) := by exact_mod_cast hd
  linarith

/-- The linspace formula is strictly monotone in the index. -/
theorem gridPoint_strict_mono (lower upper : ℚ) (density : ℕ)
    (hlt : lower < upper) (hd : 2 ≤ density) (i j : ℕ) (hij : i < j) :
    gridPoint lower upper density i < gridPoint lower upper density j := by
  unfold gridPoint
  have hden := grid_denom_pos density hd
  have hij' : (i : ℚ) < (j : ℚ) := by exact_mod_cast hij
  have hul : 0 < upper - lower := by linarith
  gcongr

/-- Claim C3: for lower < upper and density ≥ 2, construct_grid_1d succeeds
with exactly `density` strictly increasing evenly spaced points, the first
equal to `lower` and the last equal to `upper`; in particular the grid over
the unit interval with density 2 is exactly the two endpoints. -/
theorem construct_grid_1d_spec (lower upper : ℚ) (density : ℕ)
    (hlt : lower < upper) (hd : 2 ≤ density) :
    ∃ pts : List ℚ,
      construct_grid_1d lower upper density = .ok pts ∧
      pts.length = density ∧
      (∀ (i j : ℕ) (h1 : i < pts.length) (h2 : j < pts.length), i < j →
        pts.get ⟨i, h1⟩ < pts.get ⟨j, h2⟩) ∧
      (∀ (i : ℕ) (h1 : i + 1 < pts.length) (h2 : i < pts.length),
        pts.get ⟨i + 1, h1⟩ - pts.get ⟨i, h2⟩
          = (upper - lower) / ((density : ℚ) - 1)) ∧
      (∀ h0 : 0 < pts.length, pts.get ⟨0, h0⟩ = lower) ∧
      (∀ hl : density - 1 < pts.length, pts.get ⟨density - 1, hl⟩ = upper) ∧
      construct_grid_1d 0 1 2 = .ok [0, 1] := by
  refine ⟨(List.range density).map (gridPoint lower upper density),
    construct_grid_1d_ok lower upper density hlt hd, by simp, ?_, ?_, ?_, ?_, ?_⟩
  · intro i j h1 h2 hij
    simp only [List.get_eq_getElem, List.getElem_map, List.getElem_range]
    exact gridPoint_strict_mono lower upper density hlt hd i j hij
  · intro i h1 h2
    simp only [List.get_eq_getElem, List.getElem_map, List.getElem_range]
    have hden := grid_denom_pos density hd
    unfold gridPoint
    push_cast
    field_simp
    ring
  · intro h0
    simp only [List.get_eq_getElem, List.getElem_map, List.getElem_range]
    unfold gridPoint
    simp
  · intro hl
    simp only [List.get_eq_getElem, List.getElem_map, List.getElem_range]
    have hden := grid_denom_pos density hd
    unfold gridPoint
    have hcast : ((density - 1 : ℕ) : ℚ) = (density : ℚ) - 1 := by
      have : 1 ≤ density := by omega
      push_cast [this]
      ring
    rw [hcast, mul_div_assoc, div_self (ne_of_gt hden)]
    ring
  · unfold construct_grid_1d
    rw [if_neg (by norm_num)]
    simp [List.range_succ, gridPoint]
    norm_num

/-- Witness for C3 at lower = 0, upper = 1, density = 3. -/
theorem construct_grid_1d_spec_witness :
    ((0 : ℚ) < 1 ∧ 2 ≤ 3) ∧
    ∃ pts : List ℚ,
      construct_grid_1d 0 1 3 = .ok pts ∧
      pts.length = 3 ∧
      (∀ (i j : ℕ) (h1 : i < pts.length) (h2 : j < pts.length), i < j →
        pts.get ⟨i, h1⟩ < pts.get ⟨j, h2⟩) ∧
      (∀ (i : ℕ) (h1 : i + 1 < pts.length) (h2 : i < pts.length),
        pts.get ⟨i + 1, h1⟩ - pts.get ⟨i, h2⟩
          = (1 - 0) / ((3 : ℚ) - 1)) ∧
      (∀ h0 : 0 < pts.length, pts.get ⟨0, h0⟩ = 0) ∧
      (∀ hl : 3 - 1 < pts.length, pts.get ⟨3 - 1, hl⟩ = 1) ∧
      construct_grid_1d 0 1 2 = .ok [0, 1] :=
  ⟨⟨by norm_num, by norm_num⟩, construct_grid_1d_spec 0 1 3 (by norm_num) (by norm_num)⟩

/-- Claim C4: construct_grid_1d fails with InvalidRangeError whenever
upper ≤ lower or density < 2, at the call boundary. -/
theorem construct_grid_1d_invalid_range (lower upper : ℚ) (density : ℕ)
    (h : upper ≤ lower ∨ density < 2) :
    construct_grid_1d lower upper density = .error .invalidRange := by
  unfold construct_grid_1d
  rw [if_pos h]

/-- Witness for C4 at lower = 1, upper = 0, density = 5. -/
theorem construct_grid_1d_invalid_range_witness :
    ((0 : ℚ) ≤ 1 ∨ 5 < 2) ∧ construct_grid_1d 1 0 5 = .error .invalidRange :=
  ⟨Or.inl (by norm_num), construct_grid_1d_invalid_range 1 0 5 (Or.inl (by norm_num))⟩

/-! ### Theorems: MMD -/

/-- The squared MMD of a distribution against itself vanishes exactly. -/
theorem mmdSq_self (p : List ℚ) (k : ℚ → ℚ → ℚ) (X : List ℚ) :
    mmdSq p p k X = 0 := by
  unfold mmdSq
  ring

/-- The MMD scalar of a distribution against itself is zero. -/
theorem MMD_val_self (p : List ℚ) (k : ℚ → ℚ → ℚ) (X : List ℚ) :
    MMD_val p p k X = 0 := by
  unfold MMD_val
  rw [mmdSq_self]
  simp

/-- The MMD scalar is non-negative, by the clamp before the square root. -/
theorem MMD_val_nonneg (p q : List ℚ) (k : ℚ → ℚ → ℚ) (X : List ℚ) :
    0 ≤ MMD_val p q k X :=
  Real.sqrt_nonneg _

/-- Swapping the two weight vectors transposes the double kernel sum,
so a symmetric kernel makes it commutative. -/
theorem kernelDoubleSum_comm (k : ℚ → ℚ → ℚ) (X p q : List ℚ)
    (hk : ∀ a b, k a b = k b a) :
    kernelDoubleSum k X q p = kernelDoubleSum k X p q := by
  unfold kernelDoubleSum
  rw [Finset.sum_comm]
  refine Finset.sum_congr rfl fun j _ => Finset.sum_congr rfl fun i _ => ?_
  rw [hk]
  ring

/-- The squared MMD is symmetric for a symmetric kernel. -/
theorem mmdSq_comm (p q : List ℚ) (k : ℚ → ℚ → ℚ) (X : List ℚ)
    (hk : ∀ a b, k a b = k b a) :
    mmdSq p q k X = mmdSq q p k X := by
  unfold mmdSq
  rw [kernelDoubleSum_comm k X p q hk]
  ring

/-- Claim C5: for a valid distribution p (matching length, non-negative
weights summing to 1) and any kernel, the MMD of p against itself is exactly
zero, and the MMD of p against any shape-matching q is a non-negative scalar
(the clamp to 0 happens before the square root, never an error). -/
theorem MMD_self_zero_and_nonneg (p q : List ℚ) (k : ℚ → ℚ → ℚ) (X : List ℚ)
    (hp : p.length = X.length) (hw : ∀ w ∈ p, 0 ≤ w) (hsum : p.sum = 1)
    (hq : q.length = X.length) :
    MMD p p k X = .ok 0 ∧
    MMD p q k X = .ok (MMD_val p q k X) ∧
    0 ≤ MMD_val p q k X := by
  refine ⟨?_, ?_, MMD_val_nonneg p q k X⟩
  · unfold MMD
    rw [if_pos ⟨hp, hp⟩, MMD_val_self]
  · unfold MMD
    rw [if_pos ⟨hp, hq⟩]

/-- Witness for C5 with the uniform distribution on a two-point support. -/
theorem MMD_self_zero_and_nonneg_witness :
    ([(1 : ℚ)/2, 1/2].length = [(0 : ℚ), 1].length ∧
      (∀ w ∈ [(1 : ℚ)/2, 1/2], 0 ≤ w) ∧
      [(1 : ℚ)/2, 1/2].sum = 1 ∧
      [(1 : ℚ), 0].length = [(0 : ℚ), 1].length) ∧
    (MMD [(1 : ℚ)/2, 1/2] [(1 : ℚ)/2, 1/2] (fun a b => a * b) [(0 : ℚ), 1] = .ok 0 ∧
     MMD [(1 : ℚ)/2, 1/2] [(1 : ℚ), 0] (fun a b => a * b) [(0 : ℚ), 1]
       = .ok (MMD_val [(1 : ℚ)/2, 1/2] [(1 : ℚ), 0] (fun a b => a * b) [(0 : ℚ), 1]) ∧
     0 ≤ MMD_val [(1 : ℚ)/2, 1/2] [(1 : ℚ), 0] (fun a b => a * b) [(0 : ℚ), 1]) :=
  ⟨⟨by decide, by norm_num [List.forall_mem_cons], by norm_num, by decide⟩,
    MMD_self_zero_and_nonneg [(1 : ℚ)/2, 1/2] [(1 : ℚ), 0] (fun a b => a * b)
      [(0 : ℚ), 1] (by decide) (by norm_num [List.forall_mem_cons]) (by norm_num) (by decide)⟩

/-- Claim C6: MMD is symmetric in its two distribution arguments, for a
symmetric kernel and shape-matching weight vectors. -/
theorem MMD_symmetric (p q : List ℚ) (k : ℚ → ℚ → ℚ) (X : List ℚ)
    (hk : ∀ a b, k a b = k b a)
    (hp : p.length = X.length) (hq : q.length = X.length) :
    MMD p q k X = MMD q p k X := by
  unfold MMD
  rw [if_pos ⟨hp, hq⟩, if_pos ⟨hq, hp⟩]
  unfold MMD_val
  rw [mmdSq_comm p q k X hk]

/-- Witness for C6 on a two-point support with the additive kernel. -/
theorem MMD_symmetric_witness :
    ((∀ a b : ℚ, a + b = b + a) ∧
      [(1 : ℚ), 0].length = [(0 : ℚ), 1].length ∧
      [(0 : ℚ), 1].length = [(0 : ℚ), 1].length) ∧
    MMD [(1 : ℚ), 0] [(0 : ℚ), 1] (fun a b => a + b) [(0 : ℚ), 1]
      = MMD [(0 : ℚ), 1] [(1 : ℚ), 0] (fun a b => a + b) [(0 : ℚ), 1] :=
  ⟨⟨fun a b => add_comm a b, by decide, by decide⟩,
    MMD_symmetric [(1 : ℚ), 0] [(0 : ℚ), 1] (fun a b => a + b) [(0 : ℚ), 1]
      (fun a b => add_comm a b) (by decide) (by decide)⟩

/-- Claim C7: a weight vector whose length does not match the support makes
MMD fail with ShapeMismatchError. -/
theorem MMD_shape_mismatch (p q : List ℚ) (k : ℚ → ℚ → ℚ) (X : List ℚ)
    (h : p.length ≠ X.length ∨ q.length ≠ X.length) :
    MMD p q k X = .error .shapeMismatch := by
  unfold MMD
  rw [if_neg]
  tauto

/-- Witness for C7 with a one-weight vector over a two-point support. -/
theorem MMD_shape_mismatch_witness :
    ([(1 : ℚ)].length ≠ [(0 : ℚ), 1].length ∨
      [(1 : ℚ), 0].length ≠ [(0 : ℚ), 1].length) ∧
    MMD [(1 : ℚ)] [(1 : ℚ), 0] (fun a b => a * b) [(0 : ℚ), 1]
      = .error .shapeMismatch :=
  ⟨Or.inl (by decide),
    MMD_shape_mismatch [(1 : ℚ)] [(1 : ℚ), 0] (fun a b => a * b) [(0 : ℚ), 1]
      (Or.inl (by decide))⟩

/-! ### Theorems: margin of the driver -/

/-- Claim C2: the margin function of main is constant across iteration
indices, its value is the MMD of the reference and true distributions at
index 0 over the context grid computed once before the loop, and (when the
generated weight vectors match the context grid) that value is a fixed
non-negative scalar. -/
theorem margin_func_constant_and_nonneg
    (normal_dist : List ℚ → ℚ → ℚ → List ℚ) (mmd_kernel : ℚ → ℚ → ℚ)
    (context_points : List ℚ) (ref_mean ref_var true_mean true_var : ℚ)
    (hr : (normal_dist context_points ref_mean ref_var).length
        = context_points.length)
    (ht : (normal_dist context_points true_mean true_var).length
        = context_points.length)
    (i j : ℕ) :
    margin_func normal_dist mmd_kernel context_points
      ref_mean ref_var true_mean true_var i
      = margin_func normal_dist mmd_kernel context_points
        ref_mean ref_var true_mean true_var j ∧
    margin_func normal_dist mmd_kernel context_points
      ref_mean ref_var true_mean true_var i
      = MMD (ref_dist_func normal_dist context_points ref_mean ref_var 0)
          (true_dist_func normal_dist context_points true_mean true_var 0)
          mmd_kernel context_points ∧
    margin_func normal_dist mmd_kernel context_points
      ref_mean ref_var true_mean true_var i
      = .ok (MMD_val (ref_dist_func normal_dist context_points ref_mean ref_var 0)
          (true_dist_func normal_dist context_points true_mean true_var 0)
          mmd_kernel context_points) ∧
    0 ≤ MMD_val (ref_dist_func normal_dist context_points ref_mean ref_var 0)
          (true_dist_func normal_dist context_points true_mean true_var 0)
          mmd_kernel context_points := by
  refine ⟨rfl, rfl, ?_, MMD_val_nonneg _ _ _ _⟩
  unfold margin_func main_margin MMD
  rw [if_pos ⟨hr, ht⟩]

/-- Witness for C2 with uniform generated weights on a two-point context
grid, at iteration indices 0 and 7. -/
theorem margin_func_constant_and_nonneg_witness :
    (((fun (X : List ℚ) (_ _ : ℚ) => X.map fun _ => (1 : ℚ)/2) [(0 : ℚ), 1]
        ((1 : ℚ)/2) ((1 : ℚ)/20)).length = [(0 : ℚ), 1].length ∧
      ((fun (X : List ℚ) (_ _ : ℚ) => X.map fun _ => (1 : ℚ)/2) [(0 : ℚ), 1]
        ((49 : ℚ)/100) ((3 : ℚ)/50)).length = [(0 : ℚ), 1].length) ∧
    (margin_func (fun (X : List ℚ) (_ _ : ℚ) => X.map fun _ => (1 : ℚ)/2)
        (fun a b => a * b) [(0 : ℚ), 1] ((1 : ℚ)/2) ((1 : ℚ)/20)
        ((49 : ℚ)/100) ((3 : ℚ)/50) 0
      = margin_func (fun (X : List ℚ) (_ _ : ℚ) => X.map fun _ => (1 : ℚ)/2)
        (fun a b => a * b) [(0 : ℚ), 1] ((1 : ℚ)/2) ((1 : ℚ)/20)
        ((49 : ℚ)/100) ((3 : ℚ)/50) 7 ∧
     margin_func (fun (X : List ℚ) (_ _ : ℚ) => X.map fun _ => (1 : ℚ)/2)
        (fun a b => a * b) [(0 : ℚ), 1] ((1 : ℚ)/2) ((1 : ℚ)/20)
        ((49 : ℚ)/100) ((3 : ℚ)/50) 0
      = MMD (ref_dist_func (fun (X : List ℚ) (_ _ : ℚ) => X.map fun _ => (1 : ℚ)/2)
            [(0 : ℚ), 1] ((1 : ℚ)/2) ((1 : ℚ)/20) 0)
          (true_dist_func (fun (X : List ℚ) (_ _ : ℚ) => X.map fun _ => (1 : ℚ)/2)
            [(0 : ℚ), 1] ((49 : ℚ)/100) ((3 : ℚ)/50) 0)
          (fun a b => a * b) [(0 : ℚ), 1] ∧
     margin_func (fun (X : List ℚ) (_ _ : ℚ) => X.map fun _ => (1 : ℚ)/2)
        (fun a b => a * b) [(0 : ℚ), 1] ((1 : ℚ)/2) ((1 : ℚ)/20)
        ((49 : ℚ)/100) ((3 : ℚ)/50) 0
      = .ok (MMD_val
          (ref_dist_func (fun (X : List ℚ) (_ _ : ℚ) => X.map fun _ => (1 : ℚ)/2)
            [(0 : ℚ), 1] ((1 : ℚ)/2) ((1 : ℚ)/20) 0)
          (true_dist_func (fun (X : List ℚ) (_ _ : ℚ) => X.map fun _ => (1 : ℚ)/2)
            [(0 : ℚ), 1] ((49 : ℚ)/100) ((3 : ℚ)/50) 0)
          (fun a b => a * b) [(0 : ℚ), 1]) ∧
     0 ≤ MMD_val
          (ref_dist_func (fun (X : List ℚ) (_ _ : ℚ) => X.map fun _ => (1 : ℚ)/2)
            [(0 : ℚ), 1] ((1 : ℚ)/2) ((1 : ℚ)/20) 0)
          (true_dist_func (fun (X : List ℚ) (_ _ : ℚ) => X.map fun _ => (1 : ℚ)/2)
            [(0 : ℚ), 1] ((49 : ℚ)/100) ((3 : ℚ)/50) 0)
          (fun a b => a * b) [(0 : ℚ), 1]) :=
  ⟨⟨by simp, by simp⟩,
    margin_func_constant_and_nonneg
      (fun (X : List ℚ) (_ _ : ℚ) => X.map fun _ => (1 : ℚ)/2)
      (fun a b => a * b) [(0 : ℚ), 1] ((1 : ℚ)/2) ((1 : ℚ)/20)
      ((49 : ℚ)/100) ((3 : ℚ)/50) (by simp) (by simp) 0 7⟩

/-! ### Theorems: randomness of the driver -/

/-- Claim C9: the configured seed is passed only to the objective-function
builder; since main seeds the global source with the constant 0, two runs
differing only in the seed draw identical initial-point indices and identical
observation noise, and end with identical random state. -/
theorem seed_influences_only_obj_func {F σ : Type} (R : NPRandom σ) (G : ℕ → F)
    (num_search num_init seed1 seed2 : ℕ) :
    (main_prelude R G num_search num_init seed1).init_indices
      = (main_prelude R G num_search num_init seed2).init_indices ∧
    (main_prelude R G num_search num_init seed1).noise
      = (main_prelude R G num_search num_init seed2).noise ∧
    (main_prelude R G num_search num_init seed1).rng_after
      = (main_prelude R G num_search num_init seed2).rng_after ∧
    (main_prelude R G num_search num_init seed1).obj_func = G seed1 :=
  ⟨rfl, rfl, rfl, rfl⟩

/-! ### Theorems: the robust BO loop -/

/-- One bo_step appends exactly one pair to the dataset. -/
theorem bo_step_dataset {P M D R : Type}
    (action_points context_points : List ℚ) (observer : P → ℚ)
    (acq : M → List ℚ → List ℚ → D → R → P) (rdf : ℕ → D) (mf : ℕ → R)
    (refit : M → Dataset P → Bool → M) (og : Bool) (i : ℕ) (s : Dataset P × M) :
    (bo_step action_points context_points observer acq rdf mf refit og i s).1
      = datasetAppend s.1
          (acq s.2 action_points context_points (rdf i) (mf i))
          (observer (acq s.2 action_points context_points (rdf i) (mf i))) :=
  rfl

/-- Folding bo_step over the first n indices grows the dataset by exactly
one pair per iteration and keeps the starting dataset as a prefix. -/
theorem bo_fold_growth {P M D R : Type}
    (action_points context_points : List ℚ) (observer : P → ℚ)
    (acq : M → List ℚ → List ℚ → D → R → P) (rdf : ℕ → D) (mf : ℕ → R)
    (refit : M → Dataset P → Bool → M) (og : Bool) :
    ∀ (n : ℕ) (s : Dataset P × M),
      (((List.range n).foldl
        (fun t i => bo_step action_points context_points observer acq
          rdf mf refit og i t) s).1.query_points.length
        = s.1.query_points.length + n) ∧
      (((List.range n).foldl
        (fun t i => bo_step action_points context_points observer acq
          rdf mf refit og i t) s).1.observations.length
        = s.1.observations.length + n) ∧
      (∃ tq : List P, ((List.range n).foldl
        (fun t i => bo_step action_points context_points observer acq
          rdf mf refit og i t) s).1.query_points = s.1.query_points ++ tq) ∧
      (∃ tob : List ℚ, ((List.range n).foldl
        (fun t i => bo_step action_points context_points observer acq
          rdf mf refit og i t) s).1.observations = s.1.observations ++ tob) := by
  intro n
  induction n with
  | zero =>
    intro s
    exact ⟨by simp, by simp, ⟨[], by simp⟩, ⟨[], by simp⟩⟩
  | succ m ih =>
    intro s
    obtain ⟨hql, hol, ⟨tq, htq⟩, ⟨tob, hto⟩⟩ := ih s
    rw [List.range_succ, List.foldl_append]
    set r := (List.range m).foldl
      (fun t i => bo_step action_points context_points observer acq
        rdf mf refit og i t) s with hr
    simp only [List.foldl_cons, List.foldl_nil]
    rw [bo_step_dataset]
    unfold datasetAppend
    refine ⟨?_, ?_, ?_, ?_⟩
    · simp [hql]
      omega
    · simp [hol]
      omega
    · exact ⟨tq ++ [acq r.2 action_points context_points (rdf m) (mf m)],
        by simp [htq]⟩
    · exact ⟨tob ++ [observer (acq r.2 action_points context_points (rdf m) (mf m))],
        by simp [hto]⟩

/-- Claim C1: the robust BO loop returns a dataset with exactly
`init + num_iters` pairs: both paired lists grow by exactly one entry per
iteration, the initial dataset stays a prefix, and each additional iteration
appends exactly one further query point. -/
theorem bayes_opt_loop_dataset_growth {P M D R : Type}
    (model : M) (init_dataset : Dataset P)
    (action_points context_points : List ℚ) (observer : P → ℚ)
    (acq : M → List ℚ → List ℚ → D → R → P) (num_iters : ℕ)
    (rdf tdf : ℕ → D) (mf : ℕ → R)
    (refit : M → Dataset P → Bool → M) (og : Bool) :
    ((bayes_opt_loop_dist_robust model init_dataset action_points
        context_points observer acq num_iters rdf tdf mf refit og).1.query_points.length
      = init_dataset.query_points.length + num_iters) ∧
    ((bayes_opt_loop_dist_robust model init_dataset action_points
        context_points observer acq num_iters rdf tdf mf refit og).1.observations.length
      = init_dataset.observations.length + num_iters) ∧
    (∃ tq : List P, (bayes_opt_loop_dist_robust model init_dataset action_points
        context_points observer acq num_iters rdf tdf mf refit og).1.query_points
      = init_dataset.query_points ++ tq) ∧
    ∀ n : ℕ,
      ∃ q : P, (bayes_opt_loop_dist_robust model init_dataset action_points
          context_points observer acq (n + 1) rdf tdf mf refit og).1.query_points
        = (bayes_opt_loop_dist_robust model init_dataset action_points
          context_points observer acq n rdf tdf mf refit og).1.query_points ++ [q] := by
  obtain ⟨hql, hol, hpre, _⟩ := bo_fold_growth action_points context_points
    observer acq rdf mf refit og num_iters (init_dataset, model)
  refine ⟨hql, hol, hpre, ?_⟩
  intro n
  unfold bayes_opt_loop_dist_robust
  rw [List.range_succ, List.foldl_append]
  simp only [List.foldl_cons, List.foldl_nil]
  rw [bo_step_dataset]
  exact ⟨_, rfl⟩

/-! ### Theorems: initial dataset -/

/-- Claim C10: the initial query points are the search-grid entries at the
drawn indices, with replacement: some valid index draws produce duplicate
query points, the dataset length always equals the number of draws (no
deduplication), and the GP module receives that dataset unchanged. -/
theorem init_dataset_duplicates_possible (search_points : List (ℚ × ℚ))
    (num_init : ℕ) (h2 : 2 ≤ num_init) (hne : search_points ≠ []) :
    ∃ idxs : List ℕ,
      idxs.length = num_init ∧
      (∀ i ∈ idxs, i < search_points.length) ∧
      (init_query_points search_points idxs).length = num_init ∧
      ¬ (init_query_points search_points idxs).Nodup ∧
      ∀ (dims opt_max_iter : ℕ) (nv : ℚ) (obs : List ℚ),
        (mk_GPRModule dims nv ⟨init_query_points search_points idxs, obs⟩
          opt_max_iter).dataset
        = ⟨init_query_points search_points idxs, obs⟩ := by
  refine ⟨List.replicate num_init 0, List.length_replicate num_init 0, ?_, ?_, ?_,
    fun _ _ _ _ => rfl⟩
  · intro i hi
    rw [List.eq_of_mem_replicate hi]
    exact List.length_pos.mpr hne
  · simp [init_query_points]
  · unfold init_query_points
    rw [List.map_replicate]
    rw [List.nodup_replicate]
    omega

/-- Witness for C10 over the cross product of two 2-point grids,
with three initial points. -/
theorem init_dataset_duplicates_possible_witness :
    (2 ≤ 3 ∧ cross_product [(0 : ℚ), 1] [(0 : ℚ), 1] ≠ []) ∧
    ∃ idxs : List ℕ,
      idxs.length = 3 ∧
      (∀ i ∈ idxs, i < (cross_product [(0 : ℚ), 1] [(0 : ℚ), 1]).length) ∧
      (init_query_points (cross_product [(0 : ℚ), 1] [(0 : ℚ), 1]) idxs).length = 3 ∧
      ¬ (init_query_points (cross_product [(0 : ℚ), 1] [(0 : ℚ), 1]) idxs).Nodup ∧
      ∀ (dims opt_max_iter : ℕ) (nv : ℚ) (obs : List ℚ),
        (mk_GPRModule dims nv
          ⟨init_query_points (cross_product [(0 : ℚ), 1] [(0 : ℚ), 1]) idxs, obs⟩
          opt_max_iter).dataset
        = ⟨init_query_points (cross_product [(0 : ℚ), 1] [(0 : ℚ), 1]) idxs, obs⟩ :=
  ⟨⟨by norm_num, by simp [cross_product]⟩,
    init_dataset_duplicates_possible (cross_product [(0 : ℚ), 1] [(0 : ℚ), 1]) 3
      (by norm_num) (by simp [cross_product])⟩

/-! ### Theorems: acquisition -/

/-- Claim C8: on a nonempty grid, select_next_action returns the element at
some index i whose score is maximal over the whole grid and strictly greater
than the score of every earlier index — the first-encountered maximiser, a
deterministic function of the grid and the score. -/
theorem select_next_action_argmax_first {α : Type} (score : α → ℚ)
    (grid : List α) (hne : grid ≠ []) :
    ∃ (i : ℕ) (h : i < grid.length),
      select_next_action score grid = some (grid.get ⟨i, h⟩) ∧
      (∀ (j : ℕ) (hj : j < grid.length),
        score (grid.get ⟨j, hj⟩) ≤ score (grid.get ⟨i, h⟩)) ∧
      (∀ (j : ℕ) (hj : j < grid.length), j < i →
        score (grid.get ⟨j, hj⟩) < score (grid.get ⟨i, h⟩)) := by
  induction grid with
  | nil => exact absurd rfl hne
  | cons a rest ih =>
    cases rest with
    | nil =>
      refine ⟨0, by simp, rfl, ?_, ?_⟩
      · intro j hj
        have hj0 : j = 0 := by
          simp at hj
          omega
        subst hj0
        exact le_refl _
      · intro j hj hj0
        omega
    | cons b rest2 =>
      obtain ⟨i, h, heq, hmax, hfirst⟩ := ih (by simp)
      have hsel : select_next_action score (a :: b :: rest2)
          = some (if score ((b :: rest2).get ⟨i, h⟩) ≤ score a then a
              else (b :: rest2).get ⟨i, h⟩) := by
        simp only [select_next_action, heq]
      by_cases hcase : score ((b :: rest2).get ⟨i, h⟩) ≤ score a
      · refine ⟨0, by simp, ?_, ?_, ?_⟩
        · rw [hsel, if_pos hcase]
          rfl
        · intro j hj
          cases j with
          | zero => exact le_refl _
          | succ jj =>
            have hjj : jj < (b :: rest2).length := by
              simp at hj
              simpa using hj
            have : score ((a :: b :: rest2).get ⟨jj + 1, hj⟩)
                = score ((b :: rest2).get ⟨jj, hjj⟩) := rfl
            rw [this]
            exact le_trans (hmax jj hjj) hcase
        · intro j hj hj0
          omega
      · push_neg at hcase
        refine ⟨i + 1, by simpa using Nat.succ_lt_succ h, ?_, ?_, ?_⟩
        · rw [hsel, if_neg (not_le.mpr hcase)]
          rfl
        · intro j hj
          cases j with
          | zero => exact le_of_lt hcase
          | succ jj =>
            have hjj : jj < (b :: rest2).length := by
              simp at hj
              simpa using hj
            exact hmax jj hjj
        · intro j hj hji
          cases j with
          | zero => exact hcase
          | succ jj =>
            have hjj : jj < (b :: rest2).length := by
              simp at hj
              simpa using hj
            exact hfirst jj hjj (by omega)

/-- Witness for C8 on a three-point grid scored by the identity. -/
theorem select_next_action_argmax_first_witness :
    ([(1 : ℚ), 3, 2] ≠ []) ∧
    ∃ (i : ℕ) (h : i < [(1 : ℚ), 3, 2].length),
      select_next_action (fun x => x) [(1 : ℚ), 3, 2]
        = some ([(1 : ℚ), 3, 2].get ⟨i, h⟩) ∧
      (∀ (j : ℕ) (hj : j < [(1 : ℚ), 3, 2].length),
        (fun x => x) ([(1 : ℚ), 3, 2].get ⟨j, hj⟩)
          ≤ (fun x => x) ([(1 : ℚ), 3, 2].get ⟨i, h⟩)) ∧
      (∀ (j : ℕ) (hj : j < [(1 : ℚ), 3, 2].length), j < i →
        (fun x => x) ([(1 : ℚ), 3, 2].get ⟨j, hj⟩)
          < (fun x => x) ([(1 : ℚ), 3, 2].get ⟨i, h⟩)) :=
  ⟨by simp, select_next_action_argmax_first (fun x => x) [(1 : ℚ), 3, 2] (by simp)⟩

end FastDRBO
